import Mathlib

/-!
Verification of the lenient YAML boolean decoder of `netplan-types`
(`src/bool.rs`).  The decoder is exposed through two entry points:

* `string_or_bool` (the spec's `decode_required`), implemented by the
  serde visitor `StringOrBool` with `visit_bool` and `visit_str`;
* `string_or_bool_option` (the spec's `decode_optional`), implemented by
  the serde visitor `StringOrBoolOption` with `visit_none` and
  `visit_some`.

We embed the input scalar as a `YamlToken` (native boolean, string, or a
structurally non-boolean token such as a number, mapping or sequence) and
the serde error values as a `DecodeError`.  Tokens that hit none of the
implemented visitor methods fall through to serde's default visitor
methods, which raise an `invalid_type` error built from the visitor's
`expecting` string `"YAML boolean"`; we model that as `typeMismatch`.
-/

/-- A scalar token handed to the deserializer's `deserialize_any`. -/
inductive YamlToken where
  | bool (b : Bool)
  | str (s : String)
  | number (n : Int)
  | mapping
  | sequence
deriving DecidableEq

/-- The error values the decoder can produce: `unknown_variant` (the
spec's `UnrecognizedValue`, carrying the offending literal and the list
of expected variants) and `invalid_type` (the spec's `TypeMismatch`,
carrying the `expecting` string and the kind of token found). -/
inductive DecodeError where
  | unrecognizedValue (literal : String) (accepted : List String)
  | typeMismatch (expected : String) (actualKind : String)
deriving DecidableEq

/-- The expected-variants array passed to `Error::unknown_variant` in
`StringOrBool::visit_str`: `&["true", "false", "yes", "no", "on",
"off", "y", "n"]`. -/
def ACCEPTED : List String := ["true", "false", "yes", "no", "on", "off", "y", "n"]

/-- Rust's `str::to_lowercase`, restricted to its ASCII behaviour
(every letter is mapped to its lowercase form character by character),
which is all the decoder's literal grammar exercises. -/
def lowercase (s : String) : String := String.mk (s.data.map Char.toLower)

/-- `StringOrBool::visit_bool`: a native boolean passes through. -/
def visit_bool (v : Bool) : Except DecodeError Bool := .ok v

/-- `StringOrBool::visit_str`: lowercase the string and match it against
the truthy literals, then the falsy literals; otherwise raise
`unknown_variant` carrying the original string `v`. -/
def visit_str (v : String) : Except DecodeError Bool :=
  if lowercase v = "true" ∨ lowercase v = "yes" ∨ lowercase v = "on" ∨ lowercase v = "y" then
    .ok true
  else if lowercase v = "false" ∨ lowercase v = "no" ∨ lowercase v = "off" ∨ lowercase v = "n" then
    .ok false
  else
    .error (.unrecognizedValue v ACCEPTED)

/-- `string_or_bool` (the spec's `decode_required`): dispatch the token
to the `StringOrBool` visitor.  Booleans and strings hit the
implemented methods; every other token kind falls through to serde's
default visitor method, which raises `invalid_type` against the
`expecting` string `"YAML boolean"`. -/
def string_or_bool : YamlToken → Except DecodeError Bool
  | .bool b => visit_bool b
  | .str s => visit_str s
  | .number _ => .error (.typeMismatch "YAML boolean" "number")
  | .mapping => .error (.typeMismatch "YAML boolean" "mapping")
  | .sequence => .error (.typeMismatch "YAML boolean" "sequence")

/-- The three presence states of an optional field as seen by
`deserialize_option`: absent from the document, present with an explicit
null marker, or present with a concrete value. -/
inductive OptionalField where
  | absent
  | explicitNull
  | value (t : YamlToken)
deriving DecidableEq

/-- `string_or_bool_option` (the spec's `decode_optional`): the
`StringOrBoolOption` visitor maps both the absent field and the explicit
null through `visit_none`, returning `None`; `visit_some` delegates the
concrete value to `string_or_bool` and wraps the result with `Some`. -/
def string_or_bool_option : OptionalField → Except DecodeError (Option Bool)
  | .absent => .ok none
  | .explicitNull => .ok none
  | .value t => (string_or_bool t).map some

/-- The truthy literal set of the grammar. -/
def TRUTHY : List String := ["true", "yes", "on", "y"]

/-- The falsy literal set of the grammar. -/
def FALSY : List String := ["false", "no", "off", "n"]

instance {ε α : Type} [DecidableEq ε] [DecidableEq α] : DecidableEq (Except ε α) := fun x y =>
  match x, y with
  | .ok a, .ok b =>
      if h : a = b then isTrue (by rw [h]) else isFalse (fun hc => h (Except.ok.inj hc))
  | .error a, .error b =>
      if h : a = b then isTrue (by rw [h]) else isFalse (fun hc => h (Except.error.inj hc))
  | .ok _, .error _ => isFalse (fun hc => Except.noConfusion hc)
  | .error _, .ok _ => isFalse (fun hc => Except.noConfusion hc)

/-- A string whose lowercase form matches no accepted literal falls into
the catch-all arm of `visit_str` and produces `unknown_variant`. -/
theorem visit_str_reject (s : String)
    (h1 : lowercase s ∉ TRUTHY) (h2 : lowercase s ∉ FALSY) :
    visit_str s = .error (.unrecognizedValue s ACCEPTED) := by
  simp only [TRUTHY, FALSY, List.mem_cons, List.not_mem_nil, or_false, not_or] at h1 h2
  simp [visit_str, h1.1, h1.2.1, h1.2.2.1, h1.2.2.2, h2.1, h2.2.1, h2.2.2.1, h2.2.2.2]

/-- Lowercasing fixes every whitespace character. -/
theorem toLower_whitespace (c : Char) (h : c.isWhitespace) : c.toLower = c := by
  simp only [Char.isWhitespace, Bool.or_eq_true, decide_eq_true_eq] at h
  rcases h with ((h | h) | h) | h <;> subst h <;> decide

/-- None of the eight accepted literals contains a whitespace
character. -/
theorem accepted_no_whitespace :
    ∀ m ∈ ACCEPTED, ∀ c ∈ m.data, c.isWhitespace = false := by decide

/-- Every truthy literal is an accepted literal. -/
theorem truthy_subset_accepted : ∀ m ∈ TRUTHY, m ∈ ACCEPTED := by decide

/-- Every falsy literal is an accepted literal. -/
theorem falsy_subset_accepted : ∀ m ∈ FALSY, m ∈ ACCEPTED := by decide

/-- String concatenation concatenates the underlying character lists. -/
theorem data_append (a b : String) : (a ++ b).data = a.data ++ b.data := by
  cases a
  cases b
  rfl

/-- A string containing a whitespace character matches no accepted
literal even after lowercasing, so `visit_str` rejects it with
`unknown_variant`. -/
theorem visit_str_reject_whitespace (X : String) (c : Char)
    (hc : c ∈ X.data) (hw : c.isWhitespace) :
    visit_str X = .error (.unrecognizedValue X ACCEPTED) := by
  have hcl : c ∈ (lowercase X).data := by
    have h1 := List.mem_map_of_mem Char.toLower hc
    rw [toLower_whitespace c hw] at h1
    exact h1
  have key : lowercase X ∉ ACCEPTED := by
    intro hmem
    have hf := accepted_no_whitespace (lowercase X) hmem c hcl
    rw [hw] at hf
    exact Bool.noConfusion hf
  exact visit_str_reject X (fun h => key (truthy_subset_accepted _ h))
    (fun h => key (falsy_subset_accepted _ h))

/-- A nonempty string has a character. -/
theorem exists_char_of_ne_empty (p : String) (h : p ≠ "") : ∃ c, c ∈ p.data := by
  refine List.exists_mem_of_ne_nil p.data (fun hd => h ?_)
  cases p with | mk d =>
  simp only at hd
  rw [hd]

/-- C1: a string token decodes to `true` exactly when its lowercase form
is one of `true`, `yes`, `on`, `y`, decodes to `false` exactly when its
lowercase form is one of `false`, `no`, `off`, `n`, and no string
outside these two sets is accepted. -/
theorem decode_required_string_classification (s : String) :
    (lowercase s ∈ TRUTHY → string_or_bool (.str s) = .ok true) ∧
    (lowercase s ∈ FALSY → string_or_bool (.str s) = .ok false) ∧
    (lowercase s ∉ TRUTHY → lowercase s ∉ FALSY →
      ∀ b : Bool, string_or_bool (.str s) ≠ .ok b) := by
  refine ⟨?_, ?_, ?_⟩
  · intro h
    simp only [TRUTHY, List.mem_cons, List.not_mem_nil, or_false] at h
    rcases h with h | h | h | h <;> simp [string_or_bool, visit_str, h]
  · intro h
    simp only [FALSY, List.mem_cons, List.not_mem_nil, or_false] at h
    rcases h with h | h | h | h <;> simp [string_or_bool, visit_str, h]
  · intro h1 h2 b
    rw [show string_or_bool (.str s) = visit_str s from rfl, visit_str_reject s h1 h2]
    exact fun hc => Except.noConfusion hc

/-- C1 witness: `On` decodes to `true` and `Off` decodes to `false`. -/
theorem decode_required_string_classification_witness :
    string_or_bool (.str "On") = .ok true ∧ string_or_bool (.str "Off") = .ok false :=
  ⟨(decode_required_string_classification "On").1 (by decide),
   (decode_required_string_classification "Off").2.1 (by decide)⟩

/-- C2: a string token whose lowercase form is in neither literal set
fails with `unknown_variant` naming the offending literal `s` and
enumerating exactly the eight accepted literals in canonical case; it is
never silently coerced to a boolean. -/
theorem decode_required_unrecognized_error (s : String)
    (h1 : lowercase s ∉ TRUTHY) (h2 : lowercase s ∉ FALSY) :
    string_or_bool (.str s) = .error (.unrecognizedValue s ACCEPTED) ∧
    ACCEPTED = ["true", "false", "yes", "no", "on", "off", "y", "n"] ∧
    ∀ b : Bool, string_or_bool (.str s) ≠ .ok b := by
  have hr : string_or_bool (.str s) = .error (.unrecognizedValue s ACCEPTED) :=
    visit_str_reject s h1 h2
  exact ⟨hr, rfl, fun b hc => Except.noConfusion (hr ▸ hc)⟩

/-- C2 witness: `maybe` is rejected with the full error payload. -/
theorem decode_required_unrecognized_error_witness :
    string_or_bool (.str "maybe") = .error (.unrecognizedValue "maybe" ACCEPTED) ∧
    ACCEPTED = ["true", "false", "yes", "no", "on", "off", "y", "n"] ∧
    ∀ b : Bool, string_or_bool (.str "maybe") ≠ .ok b :=
  decode_required_unrecognized_error "maybe" (by decide) (by decide)

/-- C3: a native boolean token passes through unchanged, so re-decoding
the boolean produced by any successful decode yields the same boolean. -/
theorem decode_required_bool_passthrough (b : Bool) :
    string_or_bool (.bool b) = .ok b ∧
    (∀ t : YamlToken, string_or_bool t = .ok b → string_or_bool (.bool b) = .ok b) :=
  ⟨rfl, fun _ _ => rfl⟩

/-- C3 witness: re-decoding the `true` produced by decoding `yes` gives
`true` again. -/
theorem decode_required_bool_passthrough_witness :
    string_or_bool (.bool true) = .ok true :=
  (decode_required_bool_passthrough true).2 (.str "yes") (by decide)

/-- C4: a token that is neither a native boolean nor a string (a number,
a mapping, a sequence) fails with `invalid_type` against the expected
description `YAML boolean`. -/
theorem decode_required_type_mismatch :
    (∀ n : Int, string_or_bool (.number n) = .error (.typeMismatch "YAML boolean" "number")) ∧
    string_or_bool .mapping = .error (.typeMismatch "YAML boolean" "mapping") ∧
    string_or_bool .sequence = .error (.typeMismatch "YAML boolean" "sequence") ∧
    (∀ t : YamlToken, (∀ b, t ≠ .bool b) → (∀ s, t ≠ .str s) →
      ∃ k, string_or_bool t = .error (.typeMismatch "YAML boolean" k)) := by
  refine ⟨fun _ => rfl, rfl, rfl, fun t hb hs => ?_⟩
  cases t with
  | bool b => exact absurd rfl (hb b)
  | str s => exact absurd rfl (hs s)
  | number n => exact ⟨"number", rfl⟩
  | mapping => exact ⟨"mapping", rfl⟩
  | sequence => exact ⟨"sequence", rfl⟩

/-- C4 witness: a mapping token fails with the `YAML boolean` type
mismatch. -/
theorem decode_required_type_mismatch_witness :
    ∃ k, string_or_bool .mapping = .error (.typeMismatch "YAML boolean" k) :=
  decode_required_type_mismatch.2.2.2 .mapping
    (fun _ h => YamlToken.noConfusion h) (fun _ h => YamlToken.noConfusion h)

/-- C5: both the absent field and the explicit null decode to `none`
without failing; neither outcome is an error of any kind, in particular
not `unknown_variant`. -/
theorem decode_optional_absent_and_null :
    string_or_bool_option .absent = .ok none ∧
    string_or_bool_option .explicitNull = .ok none ∧
    (∀ e : DecodeError, string_or_bool_option .absent ≠ .error e) ∧
    (∀ e : DecodeError, string_or_bool_option .explicitNull ≠ .error e) :=
  ⟨rfl, rfl, fun _ hc => Except.noConfusion hc, fun _ hc => Except.noConfusion hc⟩

/-- C6: on a present value the optional decoder delegates to
`string_or_bool`: a success is wrapped in `some` and an error propagates
unchanged, so it fails exactly when the delegated call fails. -/
theorem decode_optional_delegates (t : YamlToken) :
    string_or_bool_option (.value t) = (string_or_bool t).map some ∧
    (∀ b, string_or_bool t = .ok b → string_or_bool_option (.value t) = .ok (some b)) ∧
    (∀ e, string_or_bool t = .error e → string_or_bool_option (.value t) = .error e) := by
  refine ⟨rfl, fun b h => ?_, fun e h => ?_⟩
  · simp [string_or_bool_option, h, Except.map]
  · simp [string_or_bool_option, h, Except.map]

/-- C6 witness: a present `on` decodes to `some true` and a present
`maybe` propagates the `unknown_variant` error unchanged. -/
theorem decode_optional_delegates_witness :
    string_or_bool_option (.value (.str "on")) = .ok (some true) ∧
    string_or_bool_option (.value (.str "maybe")) =
      .error (.unrecognizedValue "maybe" ACCEPTED) :=
  ⟨(decode_optional_delegates (.str "on")).2.1 true (by decide),
   (decode_optional_delegates (.str "maybe")).2.2
     (.unrecognizedValue "maybe" ACCEPTED) (by decide)⟩

/-- C7: any mixed-case form of an accepted literal decodes exactly as
its canonical lowercase form does. -/
theorem decode_required_case_insensitive (s : String)
    (h : lowercase s ∈ ACCEPTED) :
    string_or_bool (.str s) = string_or_bool (.str (lowercase s)) := by
  show visit_str s = visit_str (lowercase s)
  simp only [ACCEPTED, List.mem_cons, List.not_mem_nil, or_false] at h
  rcases h with h | h | h | h | h | h | h | h <;> rw [h] <;> simp [visit_str, h] <;> decide

/-- C7 witness: `TrUe` decodes as `true` does. -/
theorem decode_required_case_insensitive_witness :
    string_or_bool (.str "TrUe") = string_or_bool (.str (lowercase "TrUe")) :=
  decode_required_case_insensitive "TrUe" (by decide)

/-- C8: both decoders are deterministic pure functions of their single
input token: equal inputs give equal results. -/
theorem decode_deterministic (t1 t2 : YamlToken) (o1 o2 : OptionalField)
    (ht : t1 = t2) (ho : o1 = o2) :
    string_or_bool t1 = string_or_bool t2 ∧
    string_or_bool_option o1 = string_or_bool_option o2 := by
  rw [ht, ho]
  exact ⟨rfl, rfl⟩

/-- C8 witness: determinism instantiated at `on` and the absent field. -/
theorem decode_deterministic_witness :
    string_or_bool (.str "on") = string_or_bool (.str "on") ∧
    string_or_bool_option .absent = string_or_bool_option .absent :=
  decode_deterministic (.str "on") (.str "on") .absent .absent rfl rfl

/-- C9: no whitespace trimming or other normalization beyond
lowercasing: any accepted literal (in any case) padded on the left
and/or the right by whitespace-only strings, at least one of them
nonempty, fails to decode with `unknown_variant` naming the whole
padded string, and is never accepted. -/
theorem decode_required_no_whitespace_trim (p s q : String)
    (hs : lowercase s ∈ ACCEPTED)
    (hp : ∀ c ∈ p.data, c.isWhitespace)
    (hq : ∀ c ∈ q.data, c.isWhitespace)
    (hne : p ≠ "" ∨ q ≠ "") :
    string_or_bool (.str (p ++ s ++ q)) =
      .error (.unrecognizedValue (p ++ s ++ q) ACCEPTED) ∧
    ∀ b : Bool, string_or_bool (.str (p ++ s ++ q)) ≠ .ok b := by
  have hmem : ∃ c, c ∈ (p ++ s ++ q).data ∧ c.isWhitespace := by
    rcases hne with hne | hne
    · obtain ⟨c, hc⟩ := exists_char_of_ne_empty p hne
      refine ⟨c, ?_, hp c hc⟩
      rw [data_append, data_append]
      exact List.mem_append_left _ (List.mem_append_left _ hc)
    · obtain ⟨c, hc⟩ := exists_char_of_ne_empty q hne
      refine ⟨c, ?_, hq c hc⟩
      rw [data_append]
      exact List.mem_append_right _ hc
  obtain ⟨c, hc, hw⟩ := hmem
  have hr : string_or_bool (.str (p ++ s ++ q)) =
      .error (.unrecognizedValue (p ++ s ++ q) ACCEPTED) :=
    visit_str_reject_whitespace (p ++ s ++ q) c hc hw
  exact ⟨hr, fun b hb => Except.noConfusion (hr ▸ hb)⟩

/-- C9 witness: a tab-led, space-and-newline-trailed mixed-case `tRuE`
is rejected with the full error payload and never accepted. -/
theorem decode_required_no_whitespace_trim_witness :
    (string_or_bool (.str ("\t" ++ "tRuE" ++ " \n")) =
      .error (.unrecognizedValue ("\t" ++ "tRuE" ++ " \n") ACCEPTED)) ∧
    ∀ b : Bool, string_or_bool (.str ("\t" ++ "tRuE" ++ " \n")) ≠ .ok b :=
  decode_required_no_whitespace_trim "\t" "tRuE" " \n" (by decide) (by decide)
    (by decide) (Or.inl (by decide))

/-- C10: the `unknown_variant` error for a rejected string carries the
original input in its original case, not the lowercased form used for
matching. -/
theorem decode_required_error_original_case (s : String)
    (h1 : lowercase s ∉ TRUTHY) (h2 : lowercase s ∉ FALSY) :
    string_or_bool (.str s) = .error (.unrecognizedValue s ACCEPTED) ∧
    (s ≠ lowercase s →
      string_or_bool (.str s) ≠ .error (.unrecognizedValue (lowercase s) ACCEPTED)) := by
  have hr : string_or_bool (.str s) = .error (.unrecognizedValue s ACCEPTED) :=
    visit_str_reject s h1 h2
  refine ⟨hr, fun hne hc => ?_⟩
  rw [hr] at hc
  exact hne (DecodeError.unrecognizedValue.inj (Except.error.inj hc)).1

/-- C10 witness: rejecting `MayBe` names `MayBe`, not `maybe`. -/
theorem decode_required_error_original_case_witness :
    string_or_bool (.str "MayBe") = .error (.unrecognizedValue "MayBe" ACCEPTED) ∧
    ("MayBe" ≠ lowercase "MayBe" →
      string_or_bool (.str "MayBe") ≠
        .error (.unrecognizedValue (lowercase "MayBe") ACCEPTED)) :=
  decode_required_error_original_case "MayBe" (by decide) (by decide)
